import Mathlib

/-!
MAX31856 helper functions: register image and codec.

A shallow embedding of `MAX31856.h` (terryjmyers/MAX31856): the register map
`MAX31856_REG_MAP_Struct`, the derived values of `MAX31856_REG_Struct`, and the functions
`MAX31856Calculate`, `MAX31856WriteRegisters`, `MAX31856ReadRegisters`,
`MAX31856SetFactoryDefault`, `StringIndent`, `MAX31856GetREGMapStringCR0` and
`MAX31856GetREGMapStringCR1`.

Modelling conventions.

* `byte` / `uint8_t` is `Fin 256`; `int8_t` is an integer in `[-128, 127]`. Conversions between
  integer types are written out with `% 2 ^ w` (two's complement, as on the ESP targets whose
  `SPI.transferBytes` the source calls).
* A union of a bit-field struct and `byte WORD` is stored as its `WORD`; the bit-fields are views
  of that byte, first declared field in the least significant bits.
* A union of `struct { byte L; byte H; }` and an `int16_t` is stored as its two bytes; the
  `int16_t` view is the little-endian reading of `L` followed by `H`.
* `double` values are rationals. Every value that `MAX31856Calculate` computes is an integer of
  magnitude below `2 ^ 24` times one of `1`, `2 ^ -4`, `2 ^ -7`, `2 ^ -8`, hence a binary64
  number, and the binary64 product of such an integer with its scale factor is exact.
* The SPI bus is observed through the list of MOSI buffers handed to `SPI.transferBytes`; the
  bytes clocked in on MISO are an argument of `MAX31856ReadRegisters`.
* An Arduino `String` is a `String`, its `length()` the number of bytes; a report function
  returns the value of its reference argument `s` on return. A function that reads the global
  instance `MAX31856` takes the current value of that instance as an argument.
-/

namespace Max31856

/-! ## Machine integers -/

/-- The Arduino `byte` / `uint8_t`. -/
abbrev byte := Fin 256

/-- The C type `int8_t`. -/
structure int8_t where
  val : Int
  lo : -128 ≤ val
  hi : val ≤ 127
  deriving DecidableEq

/-- Conversion of an integer to `uint8_t`: reduction modulo `2 ^ 8`. -/
def toUInt8 (i : Int) : byte :=
  ⟨(i % 256).toNat, by omega⟩

/-- Conversion of an integer to `int8_t`: the value modulo `2 ^ 8` in `[-128, 127]`. -/
def toInt8 (i : Int) : int8_t :=
  ⟨(i + 128) % 256 - 128, by omega, by omega⟩

/-- Conversion of an integer to `int16_t`: the value modulo `2 ^ 16` in `[-32768, 32767]`. -/
def toInt16 (i : Int) : Int :=
  (i + 32768) % 65536 - 32768

/-- Conversion of an integer to `uint32_t`: reduction modulo `2 ^ 32`. -/
def toUInt32 (i : Int) : Nat :=
  (i % 4294967296).toNat

/-- Conversion of an integer to `int32_t`: the value modulo `2 ^ 32` in `[-2 ^ 31, 2 ^ 31 - 1]`. -/
def toInt32 (i : Int) : Int :=
  (i + 2147483648) % 4294967296 - 2147483648

/-! ## The register map (`struct MAX31856_REG_MAP_Struct`) -/

/-- A register that is a union of one-bit or few-bit fields with `byte WORD`
(`CR0`, `CR1`, `MASK`, `SR`). -/
structure Reg8 where
  WORD : byte
  deriving DecidableEq

/-- A 16-bit register pair `union { struct { byte L; byte H; }; int16_t ...; byte WORD[2]; }`
(`LTHFT`, `LTLFT`, `CJT`). -/
structure Reg16 where
  H : byte
  L : byte
  deriving DecidableEq

/-- The `int16_t` member of a `Reg16` union: `L` is at the lower memory address, so the
little-endian word is `H * 256 + L`, read as a signed 16-bit integer. -/
def Reg16.int16 (r : Reg16) : Int :=
  toInt16 ((r.H.val : Int) * 256 + (r.L.val : Int))

/-- The 24-bit register triple `union { struct { byte H; byte M; byte L; }; byte WORD[3]; }`
(`LTC`). -/
structure Reg24 where
  H : byte
  M : byte
  L : byte
  deriving DecidableEq

/-- The sixteen registers `struct MAX31856_REG_MAP_Struct`, addresses `0x00` to `0x0f`. -/
structure MAX31856_REG_MAP_Struct where
  CR0 : Reg8
  CR1 : Reg8
  MASK : Reg8
  CJHF : int8_t
  CJLF : int8_t
  LTHFT : Reg16
  LTLFT : Reg16
  CJTO : int8_t
  CJT : Reg16
  LTC : Reg24
  SR : Reg8
  deriving DecidableEq

/-- The register image with its seven derived values `struct MAX31856_REG_Struct`. -/
structure MAX31856_REG_Struct where
  REG : MAX31856_REG_MAP_Struct
  CJHF : ℚ
  CJLF : ℚ
  LTHFT : ℚ
  LTLFT : ℚ
  CJTO : ℚ
  CJT : ℚ
  LTCT : ℚ
  deriving DecidableEq

/-- The global `MAX31856_REG_Struct MAX31856;`, the default argument of every function of the
file: an object of static storage duration, hence zero-initialised. -/
def MAX31856 : MAX31856_REG_Struct :=
  { REG :=
      { CR0 := ⟨0⟩, CR1 := ⟨0⟩, MASK := ⟨0⟩, CJHF := toInt8 0, CJLF := toInt8 0,
        LTHFT := ⟨0, 0⟩, LTLFT := ⟨0, 0⟩, CJTO := toInt8 0, CJT := ⟨0, 0⟩,
        LTC := ⟨0, 0, 0⟩, SR := ⟨0⟩ }
    CJHF := 0, CJLF := 0, LTHFT := 0, LTLFT := 0, CJTO := 0, CJT := 0, LTCT := 0 }

/-- The observable side of the global `SPI` object: the MOSI buffers handed to
`SPI.transferBytes`, oldest first. -/
structure SPIClass where
  mosi : List (List byte)
  deriving DecidableEq

/-! ## Bit-fields -/

/-- Read of the bit-field of `width` bits whose least significant bit is bit `shift` of `w`. -/
def getBits (w : byte) (shift width : Nat) : Nat :=
  (w.val / 2 ^ shift) % 2 ^ width

/-- Assignment of `v` to the bit-field of `width` bits at bit `shift` of `w`: the value is
converted to the unsigned `width`-bit type of the field (reduced modulo `2 ^ width`) and the bits
of `w` below and above the field are kept. -/
def setBits (w : byte) (shift width : Nat) (v : Nat) : byte :=
  Fin.ofNat (w.val % 2 ^ shift + (v % 2 ^ width) * 2 ^ shift
    + (w.val / 2 ^ (shift + width)) * 2 ^ (shift + width))

/-- Field `CR0.Hz50_60`, bit 0. -/
def Reg8.Hz50_60 (r : Reg8) : Nat := getBits r.WORD 0 1
/-- Field `CR0.FAULTCLR`, bit 1. -/
def Reg8.FAULTCLR (r : Reg8) : Nat := getBits r.WORD 1 1
/-- Field `CR0.FAULT`, bit 2. -/
def Reg8.FAULT (r : Reg8) : Nat := getBits r.WORD 2 1
/-- Field `CR0.CJ`, bit 3. -/
def Reg8.CJ (r : Reg8) : Nat := getBits r.WORD 3 1
/-- Field `CR0.OCFAULT0`, bit 4. -/
def Reg8.OCFAULT0 (r : Reg8) : Nat := getBits r.WORD 4 1
/-- Field `CR0.OCFAULT1`, bit 5. -/
def Reg8.OCFAULT1 (r : Reg8) : Nat := getBits r.WORD 5 1
/-- Field `CR0.ONESHOT`, bit 6. -/
def Reg8.ONESHOT (r : Reg8) : Nat := getBits r.WORD 6 1
/-- Field `CR0.CMODE`, bit 7. -/
def Reg8.CMODE (r : Reg8) : Nat := getBits r.WORD 7 1

/-- Field `CR1.TCTYPE`, bits 3..0. -/
def Reg8.TCTYPE (r : Reg8) : Nat := getBits r.WORD 0 4
/-- Field `CR1.AVGSEL`, bits 6..4. -/
def Reg8.AVGSEL (r : Reg8) : Nat := getBits r.WORD 4 3
/-- Field `CR1.Reserved7`, bit 7. -/
def Reg8.Reserved7 (r : Reg8) : Nat := getBits r.WORD 7 1

/-- The assignment `M.REG.CR1.AVGSEL = v`. -/
def Reg8.setAVGSEL (r : Reg8) (v : Nat) : Reg8 := ⟨setBits r.WORD 4 3 v⟩

/-- The assignment `M.REG.CR1.TCTYPE = v`. -/
def Reg8.setTCTYPE (r : Reg8) (v : Nat) : Reg8 := ⟨setBits r.WORD 0 4 v⟩

/-- The assignment `M.REG.CR1.Reserved7 = v`, also `M.REG.MASK.Reserved7 = v`: both registers
declare `Reserved7` as their bit 7, and `Reg8.Reserved7` reads it in both. -/
def Reg8.setReserved7 (r : Reg8) (v : Nat) : Reg8 := ⟨setBits r.WORD 7 1 v⟩

/-- The assignment `M.REG.CR0.Hz50_60 = v`. -/
def Reg8.setHz50_60 (r : Reg8) (v : Nat) : Reg8 := ⟨setBits r.WORD 0 1 v⟩
/-- The assignment `M.REG.CR0.FAULTCLR = v`. -/
def Reg8.setFAULTCLR (r : Reg8) (v : Nat) : Reg8 := ⟨setBits r.WORD 1 1 v⟩
/-- The assignment `M.REG.CR0.FAULT = v`. -/
def Reg8.setFAULT (r : Reg8) (v : Nat) : Reg8 := ⟨setBits r.WORD 2 1 v⟩
/-- The assignment `M.REG.CR0.CJ = v`. -/
def Reg8.setCJ (r : Reg8) (v : Nat) : Reg8 := ⟨setBits r.WORD 3 1 v⟩
/-- The assignment `M.REG.CR0.OCFAULT0 = v`. -/
def Reg8.setOCFAULT0 (r : Reg8) (v : Nat) : Reg8 := ⟨setBits r.WORD 4 1 v⟩
/-- The assignment `M.REG.CR0.OCFAULT1 = v`. -/
def Reg8.setOCFAULT1 (r : Reg8) (v : Nat) : Reg8 := ⟨setBits r.WORD 5 1 v⟩
/-- The assignment `M.REG.CR0.ONESHOT = v`. -/
def Reg8.setONESHOT (r : Reg8) (v : Nat) : Reg8 := ⟨setBits r.WORD 6 1 v⟩
/-- The assignment `M.REG.CR0.CMODE = v`. -/
def Reg8.setCMODE (r : Reg8) (v : Nat) : Reg8 := ⟨setBits r.WORD 7 1 v⟩

/-- Field `MASK.OPEN_FAULT_MASK`, bit 0. -/
def Reg8.OPEN_FAULT_MASK (r : Reg8) : Nat := getBits r.WORD 0 1
/-- Field `MASK.OV_UV_FAULT_MASK`, bit 1. -/
def Reg8.OV_UV_FAULT_MASK (r : Reg8) : Nat := getBits r.WORD 1 1
/-- Field `MASK.TC_LOW_FAULT_MASK`, bit 2. -/
def Reg8.TC_LOW_FAULT_MASK (r : Reg8) : Nat := getBits r.WORD 2 1
/-- Field `MASK.TC_HIGH_FAULT_MASK`, bit 3. -/
def Reg8.TC_HIGH_FAULT_MASK (r : Reg8) : Nat := getBits r.WORD 3 1
/-- Field `MASK.CJ_LOW_FAULT_MASK`, bit 4. -/
def Reg8.CJ_LOW_FAULT_MASK (r : Reg8) : Nat := getBits r.WORD 4 1
/-- Field `MASK.CJ_HIGH_FAULT_MASK`, bit 5. -/
def Reg8.CJ_HIGH_FAULT_MASK (r : Reg8) : Nat := getBits r.WORD 5 1
/-- Field `MASK.Reserved6`, bit 6. -/
def Reg8.Reserved6 (r : Reg8) : Nat := getBits r.WORD 6 1

/-- The assignment `M.REG.MASK.OPEN_FAULT_MASK = v`. -/
def Reg8.setOPEN_FAULT_MASK (r : Reg8) (v : Nat) : Reg8 := ⟨setBits r.WORD 0 1 v⟩
/-- The assignment `M.REG.MASK.OV_UV_FAULT_MASK = v`. -/
def Reg8.setOV_UV_FAULT_MASK (r : Reg8) (v : Nat) : Reg8 := ⟨setBits r.WORD 1 1 v⟩
/-- The assignment `M.REG.MASK.TC_LOW_FAULT_MASK = v`. -/
def Reg8.setTC_LOW_FAULT_MASK (r : Reg8) (v : Nat) : Reg8 := ⟨setBits r.WORD 2 1 v⟩
/-- The assignment `M.REG.MASK.TC_HIGH_FAULT_MASK = v`. -/
def Reg8.setTC_HIGH_FAULT_MASK (r : Reg8) (v : Nat) : Reg8 := ⟨setBits r.WORD 3 1 v⟩
/-- The assignment `M.REG.MASK.CJ_LOW_FAULT_MASK = v`. -/
def Reg8.setCJ_LOW_FAULT_MASK (r : Reg8) (v : Nat) : Reg8 := ⟨setBits r.WORD 4 1 v⟩
/-- The assignment `M.REG.MASK.CJ_HIGH_FAULT_MASK = v`. -/
def Reg8.setCJ_HIGH_FAULT_MASK (r : Reg8) (v : Nat) : Reg8 := ⟨setBits r.WORD 5 1 v⟩
/-- The assignment `M.REG.MASK.Reserved6 = v`. -/
def Reg8.setReserved6 (r : Reg8) (v : Nat) : Reg8 := ⟨setBits r.WORD 6 1 v⟩

/-! ## `MAX31856Calculate` -/

/-- The statement `if (temp & 0x800000) temp |= 0xFF000000;` of `MAX31856Calculate`, as a
function of the `int32_t temp` before it. The bitwise operators act on the 32-bit pattern of
`temp`; `0xFF000000` is an `unsigned` constant, so the result of `|=` is converted back to
`int32_t`. -/
def MAX31856Calculate.fixSign (temp : Int) : Int :=
  if toUInt32 temp &&& 0x800000 ≠ 0 then
    toInt32 ((toUInt32 temp ||| 0xFF000000 : Nat) : Int)
  else temp

/-- The local `int32_t temp` of `MAX31856Calculate` after `temp >>= 5`, from the three bytes of
`LTC`: the bytes are promoted to `int` and joined, the sign is fixed, and the arithmetic right
shift drops the five unused low bits. -/
def MAX31856Calculate.temp (LTC : Reg24) : Int :=
  let temp0 : Int := toInt32 ((LTC.H.val <<< 16 ||| LTC.M.val <<< 8 ||| LTC.L.val : Nat) : Int)
  let temp1 : Int := MAX31856Calculate.fixSign temp0
  temp1 >>> (5 : Nat)

/-- Function `void MAX31856Calculate(struct MAX31856_REG_Struct * M)`: the state of `*M` on
return. -/
def MAX31856Calculate (M : MAX31856_REG_Struct) : MAX31856_REG_Struct :=
  { M with
    CJHF := (M.REG.CJHF.val : ℚ)
    CJLF := (M.REG.CJLF.val : ℚ)
    LTHFT := (M.REG.LTHFT.int16 : ℚ) * 0.0625
    LTLFT := (M.REG.LTLFT.int16 : ℚ) * 0.0625
    CJTO := (M.REG.CJTO.val : ℚ) * 0.0625
    CJT := (M.REG.CJT.int16 : ℚ) * 0.00390625
    LTCT := (MAX31856Calculate.temp M.REG.LTC : ℚ) * 0.0078125 }

/-! ## `MAX31856WriteRegisters` -/

/-- The local array `uint8_t BufferOut[13]` of `MAX31856WriteRegisters` when it is handed to
`SPI.transferBytes`. -/
def MAX31856WriteRegisters.BufferOut (M : MAX31856_REG_Struct) : List byte :=
  [ 0x80,
    M.REG.CR0.WORD,
    M.REG.CR1.WORD,
    M.REG.MASK.WORD,
    toUInt8 M.REG.CJHF.val,
    toUInt8 M.REG.CJLF.val,
    M.REG.LTHFT.H,
    M.REG.LTHFT.L,
    M.REG.LTLFT.H,
    M.REG.LTLFT.L,
    toUInt8 M.REG.CJTO.val,
    M.REG.CJT.H,
    M.REG.CJT.L ]

/-- Function `void MAX31856WriteRegisters(struct MAX31856_REG_Struct * M)`: `*M` is only read;
the one effect is the transfer of `BufferOut` on the bus. -/
def MAX31856WriteRegisters (M : MAX31856_REG_Struct) (SPI : SPIClass) : SPIClass :=
  { SPI with mosi := SPI.mosi ++ [MAX31856WriteRegisters.BufferOut M] }

/-! ## `MAX31856ReadRegisters` -/

/-- Element `i` of the local array `uint8_t BufferIn[17] = { 0 }` of `MAX31856ReadRegisters`
after `SPI.transferBytes(&BufferOut[0], &BufferIn[0], sizeof(BufferIn))`, where `miso` is the
sequence of bytes clocked in. The transfer is of `sizeof(BufferIn) = 17` bytes, so in every run
of the source `miso` has seventeen elements and element `i` is `miso[i]`. On a list of another
length the definition is only kept total (the first seventeen elements, and the initialiser `0`
where there is none); the source has no such run. -/
def MAX31856ReadRegisters.BufferIn (miso : List byte) (i : Nat) : byte :=
  (miso.take 17).getD i 0

/-- Function `void MAX31856ReadRegisters(struct MAX31856_REG_Struct * M)`: the state of `*M`
and of the bus on return, given the bytes `miso` clocked in during the transfer. -/
def MAX31856ReadRegisters (M : MAX31856_REG_Struct) (SPI : SPIClass) (miso : List byte) :
    MAX31856_REG_Struct × SPIClass :=
  let BufferIn := MAX31856ReadRegisters.BufferIn miso
  let BufferOut : List byte := List.replicate 17 0
  ({ M with
      REG :=
        { M.REG with
          CR0 := ⟨BufferIn 1⟩
          CR1 := ⟨BufferIn 2⟩
          MASK := ⟨BufferIn 3⟩
          CJHF := toInt8 (BufferIn 4).val
          CJLF := toInt8 (BufferIn 5).val
          LTHFT := ⟨BufferIn 6, BufferIn 7⟩
          LTLFT := ⟨BufferIn 8, BufferIn 9⟩
          CJTO := toInt8 (BufferIn 10).val
          CJT := ⟨BufferIn 11, BufferIn 12⟩
          LTC := ⟨BufferIn 13, BufferIn 14, BufferIn 15⟩
          SR := ⟨BufferIn 16⟩ } },
   { SPI with mosi := SPI.mosi ++ [BufferOut] })

/-! ## `MAX31856SetFactoryDefault` -/

/-- Function `void MAX31856SetFactoryDefault(struct MAX31856_REG_Struct * M)`: the sixteen
register assignments (the `int` constants `0x7f`, `0xc0`, `0x00` are converted to `int8_t`), followed by
`MAX31856WriteRegisters(M)`. -/
def MAX31856SetFactoryDefault (M : MAX31856_REG_Struct) (SPI : SPIClass) :
    MAX31856_REG_Struct × SPIClass :=
  let M1 : MAX31856_REG_Struct :=
    { M with
      REG :=
        { M.REG with
          CR0 := ⟨0x00⟩
          CR1 := ⟨0x03⟩
          MASK := ⟨0xff⟩
          CJHF := toInt8 0x7f
          CJLF := toInt8 0xc0
          LTHFT := ⟨0x7f, 0xff⟩
          LTLFT := ⟨0x80, 0x00⟩
          CJTO := toInt8 0x00
          CJT := ⟨0x00, 0x00⟩
          LTC := ⟨0x00, 0x00, 0x00⟩
          SR := ⟨0x00⟩ } }
  (M1, MAX31856WriteRegisters M1 SPI)

/-! ## `MAX31856GetREGMapStringCR1` -/

/-- The `if`/`else if` chain on `M->REG.CR1.AVGSEL` at the head of
`MAX31856GetREGMapStringCR1`: the text appended to `s` and the value given to the local
`uint8_t AveragedSamples`. -/
def MAX31856GetREGMapStringCR1.AveragedSamples (M : MAX31856_REG_Struct) : String × Nat :=
  if M.REG.CR1.AVGSEL = 0 then
    ("\tAVGSEL: Sample Averaging DISABLED\r\n", 1)
  else if M.REG.CR1.AVGSEL = 1 then
    ("\tAVGSEL: 2 Samples Averaged\r\n", 2)
  else if M.REG.CR1.AVGSEL = 2 then
    ("\tAVGSEL: 4 Samples Averaged\r\n", 4)
  else if M.REG.CR1.AVGSEL = 3 then
    ("\tAVGSEL: 8 Samples Averaged\r\n", 8)
  else if M.REG.CR1.AVGSEL ≥ 4 ∧ M.REG.CR1.AVGSEL ≤ 7 then
    ("\tAVGSEL: 16 Sample Averaging Enabled\r\n", 16)
  else
    ("\tAVGSEL: ERROR detecing sample averaging status\r\n", 0)

/-- The ten consecutive `if` statements on `M->REG.CR1.TCTYPE` of `MAX31856GetREGMapStringCR1`
(none of them an `else`), each appending its label to `s` when its test holds. -/
def MAX31856GetREGMapStringCR1.TCTypeLabel (s : String) (M : MAX31856_REG_Struct) : String :=
  let s := if M.REG.CR1.TCTYPE = 0 then s ++ "B" else s
  let s := if M.REG.CR1.TCTYPE = 1 then s ++ "E" else s
  let s := if M.REG.CR1.TCTYPE = 2 then s ++ "J" else s
  let s := if M.REG.CR1.TCTYPE = 3 then s ++ "K" else s
  let s := if M.REG.CR1.TCTYPE = 4 then s ++ "N" else s
  let s := if M.REG.CR1.TCTYPE = 5 then s ++ "R" else s
  let s := if M.REG.CR1.TCTYPE = 6 then s ++ "S" else s
  let s := if M.REG.CR1.TCTYPE = 7 then s ++ "T" else s
  let s := if M.REG.CR1.TCTYPE ≥ 8 ∧ M.REG.CR1.TCTYPE ≤ 11 then s ++ "Voltage 8 X gain" else s
  let s := if M.REG.CR1.TCTYPE ≥ 12 ∧ M.REG.CR1.TCTYPE ≤ 15 then s ++ "Voltage 32 X gain" else s
  s

/-- Function `void MAX31856GetREGMapStringCR1(String &s, struct MAX31856_REG_Struct * M)`: the
value of `s` on return. The two `String(float)` conversions of the estimated conversion time
are not modelled: their texts are the arguments `Tconv` and `TconvMax`. -/
def MAX31856GetREGMapStringCR1 (s : String) (M : MAX31856_REG_Struct)
    (Tconv TconvMax : String) : String :=
  let s := s ++ "CR1 (Configuration Register)\r\n"
  let s := s ++ (MAX31856GetREGMapStringCR1.AveragedSamples M).1
  let s := s ++ "\tEstimated Conversion Time:\t"
  let s := s ++ Tconv
  let s := s ++ "ms typical, "
  let s := s ++ TconvMax
  let s := s ++ "ms Maximum\r\n"
  let s := s ++ "\tTC Type:\t"
  let s := MAX31856GetREGMapStringCR1.TCTypeLabel s M
  s ++ "\r\n"

/-! ## `StringIndent` and `MAX31856GetREGMapStringCR0` -/

/-- Function `String StringIndent(String s, uint8_t NumOfTabs)` with `TABLENGTH` 8: every local
is a `uint8_t`, so each value is reduced modulo `2 ^ 8`. -/
def StringIndent (s : String) (NumOfTabs : Nat) : String :=
  let StringLength : Nat := s.utf8ByteSize % 256
  let ColumnNumber : Nat := (NumOfTabs % 256 * 8) % 256
  let Difference : Nat := (ColumnNumber + 256 - StringLength) % 256
  let NumOfTabsToAdd : Nat := Difference / 8
  let NumOfTabsToAdd : Nat :=
    if StringLength % 8 ≠ 0 then (NumOfTabsToAdd + 1) % 256 else NumOfTabsToAdd
  s ++ String.join (List.replicate NumOfTabsToAdd "\t")

set_option linter.unusedVariables false in
/-- Function `void MAX31856GetREGMapStringCR0(String &s, struct MAX31856_REG_Struct * M)`: the
value of `s` on return. The body never dereferences `M`: every test reads
`MAX31856.REG.CR0`, the global instance, whose current value is the argument `global`. -/
def MAX31856GetREGMapStringCR0 (s : String) (M : MAX31856_REG_Struct)
    (global : MAX31856_REG_Struct) : String :=
  let s := s ++ "CR0 (Configuration Register)\r\n"
  let s := s ++ StringIndent "\tMODE" 2
  let s :=
    if global.REG.CR0.CMODE ≠ 0 then s ++ "Continuous Conversion Mode"
    else s ++ "Normally Off (One Shot)\t*Default"
  let s := s ++ "\r\n"
  let s := s ++ StringIndent "\t1SHOT" 2
  let s :=
    if global.REG.CR0.CMODE ≠ 0 then
      s ++ "N/A: No effect in Continuous Conversion Mode"
    else
      let s :=
        if global.REG.CR0.ONESHOT ≠ 0 then s ++ "Conversion ready or active"
        else s ++ "No conversion active\t*Default"
      s ++ "\r\n"
  let s := s ++ StringIndent "\tOCFAULT" 2
  let s :=
    if global.REG.CR0.OCFAULT0 = 0 ∧ global.REG.CR0.OCFAULT1 = 0 then
      s ++ "Open Circuit Detection DISABLED"
    else if global.REG.CR0.OCFAULT0 = 1 ∧ global.REG.CR0.OCFAULT1 = 0 then
      let s := s ++ "Open Circuit Detection ENABLED. Fault Detection Time ~"
      if global.REG.CR0.CJ ≠ 0 then s ++ "13.3ms-15ms" else s ++ "40ms-44ms"
    else if global.REG.CR0.OCFAULT0 = 0 ∧ global.REG.CR0.OCFAULT1 = 1 then
      let s := s ++ "Open Circuit Detection ENABLED. Fault Detection Time ~"
      if global.REG.CR0.CJ ≠ 0 then s ++ "33.4ms-37ms" else s ++ "60ms-66ms"
    else if global.REG.CR0.OCFAULT0 = 1 ∧ global.REG.CR0.OCFAULT1 = 1 then
      let s := s ++ "Open Circuit Detection ENABLED. Fault Detection Time ~"
      if global.REG.CR0.CJ ≠ 0 then s ++ "113.4ms-125ms" else s ++ "140ms-154ms"
    else s
  let s := s ++ "\r\n"
  let s := s ++ StringIndent "\tCJ" 2
  let s := if global.REG.CR0.CJ ≠ 0 then s ++ "CJ DISABLED" else s ++ "CJ ENABLED\t*Default"
  let s := s ++ "\r\n"
  let s := s ++ StringIndent "\tFAULT" 2
  let s :=
    if global.REG.CR0.FAULT ≠ 0 then
      s ++ "FAULT pin and fault bits are latched and requires a FAULTCLR cmd"
    else s ++ "FAULT pin and fault bits are automatically Reset\t*Default"
  let s := s ++ "\r\n"
  let s := s ++ StringIndent "\tFAULTCLR" 2
  let s :=
    if global.REG.CR0.FAULTCLR ≠ 0 then s ++ "Set to clear faults"
    else s ++ "N/A: No effect in FAULT mode 0\t*Default"
  let s := s ++ "\r\n"
  let s := s ++ StringIndent "\t50/60Hz" 2
  let s :=
    if global.REG.CR0.Hz50_60 ≠ 0 then s ++ "50Hz notch filter"
    else s ++ "60hz notch filter\t*Default"
  s ++ "\r\n"

/-! ## Exactness of the `double` arithmetic -/

/-- A rational of the form `n · 2 ^ -8` with `n` an integer of magnitude below `2 ^ 53`. Such a
number is a binary64 value (a 53-bit significand with exponent `-8`), so a `double` operation
whose exact result has this form returns that result without rounding. -/
def isBinary64 (q : ℚ) : Prop :=
  (q * 256).den = 1 ∧ |(q * 256).num| < 2 ^ 53

instance (q : ℚ) : Decidable (isBinary64 q) := by
  unfold isBinary64
  infer_instance

/-! ## Auxiliary facts on the integer conversions -/

theorem toInt8_toUInt8 (x : int8_t) : toInt8 ((toUInt8 x.val).val : Int) = x := by
  obtain ⟨v, lo, hi⟩ := x
  simp only [toInt8, toUInt8, int8_t.mk.injEq]
  omega

theorem toUInt8_toInt8 (b : byte) : toUInt8 (toInt8 (b.val : Int)).val = b := by
  apply Fin.ext
  simp only [toInt8, toUInt8]
  omega

theorem toUInt8_val (x : int8_t) :
    ((toUInt8 x.val).val : Int) = if 0 ≤ x.val then x.val else x.val + 256 := by
  obtain ⟨v, lo, hi⟩ := x
  simp only [toUInt8]
  split <;> omega

theorem toInt8_val (b : byte) :
    (toInt8 (b.val : Int)).val = if b.val < 128 then (b.val : Int) else (b.val : Int) - 256 := by
  simp only [toInt8]
  split <;> omega

theorem Reg16.int16_eq (r : Reg16) :
    r.int16 = if r.H.val * 256 + r.L.val < 32768 then ((r.H.val * 256 + r.L.val : Nat) : Int)
      else ((r.H.val * 256 + r.L.val : Nat) : Int) - 65536 := by
  simp only [Reg16.int16, toInt16]
  split <;> omega

/-! ## Auxiliary facts on lists of seventeen bytes -/

theorem length_eq_seventeen (b : List byte) (h : b.length = 17) :
    ∃ b0 b1 b2 b3 b4 b5 b6 b7 b8 b9 b10 b11 b12 b13 b14 b15 b16 : byte,
      b = [b0, b1, b2, b3, b4, b5, b6, b7, b8, b9, b10, b11, b12, b13, b14, b15, b16] := by
  rcases b with _ | ⟨b0, _ | ⟨b1, _ | ⟨b2, _ | ⟨b3, _ | ⟨b4, _ | ⟨b5, _ | ⟨b6, _ | ⟨b7, _ | ⟨b8, _ | ⟨b9, _ | ⟨b10, _ | ⟨b11, _ | ⟨b12, _ | ⟨b13, _ | ⟨b14, _ | ⟨b15, _ | ⟨b16, _ | ⟨_, _⟩⟩⟩⟩⟩⟩⟩⟩⟩⟩⟩⟩⟩⟩⟩⟩⟩⟩ <;>
    simp at h
  exact ⟨b0, b1, b2, b3, b4, b5, b6, b7, b8, b9, b10, b11, b12, b13, b14, b15, b16, rfl⟩

/-! ## The write buffer -/

/-- C1: for every register image the buffer built by `MAX31856WriteRegisters` is the 13-byte
list `0x80, CR0, CR1, MASK, CJHF, CJLF, LTHFT.H, LTHFT.L, LTLFT.H, LTLFT.L, CJTO, CJT.H, CJT.L`,
the three signed fields appearing as their two's-complement byte; this buffer is what is handed
to the bus, and it does not depend on `LTC` or `SR`. -/
theorem C1_WriteRegisters_buffer (M : MAX31856_REG_Struct) (SPI : SPIClass) :
    (∃ cjhf cjlf cjto : byte,
      MAX31856WriteRegisters.BufferOut M =
        [0x80, M.REG.CR0.WORD, M.REG.CR1.WORD, M.REG.MASK.WORD, cjhf, cjlf,
          M.REG.LTHFT.H, M.REG.LTHFT.L, M.REG.LTLFT.H, M.REG.LTLFT.L, cjto,
          M.REG.CJT.H, M.REG.CJT.L] ∧
      (cjhf.val : Int) = (if 0 ≤ M.REG.CJHF.val then M.REG.CJHF.val else M.REG.CJHF.val + 256) ∧
      (cjlf.val : Int) = (if 0 ≤ M.REG.CJLF.val then M.REG.CJLF.val else M.REG.CJLF.val + 256) ∧
      (cjto.val : Int) = (if 0 ≤ M.REG.CJTO.val then M.REG.CJTO.val else M.REG.CJTO.val + 256)) ∧
    (MAX31856WriteRegisters.BufferOut M).length = 13 ∧
    (MAX31856WriteRegisters M SPI).mosi = SPI.mosi ++ [MAX31856WriteRegisters.BufferOut M] ∧
    ∀ (LTC : Reg24) (SR : Reg8),
      MAX31856WriteRegisters.BufferOut { M with REG := { M.REG with LTC := LTC, SR := SR } } =
        MAX31856WriteRegisters.BufferOut M := by
  refine ⟨⟨toUInt8 M.REG.CJHF.val, toUInt8 M.REG.CJLF.val, toUInt8 M.REG.CJTO.val, rfl,
    toUInt8_val _, toUInt8_val _, toUInt8_val _⟩, rfl, rfl, ?_⟩
  intro LTC SR
  rfl

/-! ## The read buffer -/

/-- C2: for every 17-byte input `b`, after `MAX31856ReadRegisters` the sixteen registers hold
`b[1]` to `b[16]` in address order (`CJHF`, `CJLF`, `CJTO` as the signed reading of their byte),
and any other call whose 17-byte input agrees with `b` from index 1 on gives the same registers,
whatever its `b[0]`, its prior state and its bus history. -/
theorem C2_ReadRegisters_positional (M : MAX31856_REG_Struct) (SPI : SPIClass) (b : List byte)
    (h : b.length = 17) :
    (MAX31856ReadRegisters M SPI b).1.REG.CR0.WORD = b[1] ∧
    (MAX31856ReadRegisters M SPI b).1.REG.CR1.WORD = b[2] ∧
    (MAX31856ReadRegisters M SPI b).1.REG.MASK.WORD = b[3] ∧
    (MAX31856ReadRegisters M SPI b).1.REG.CJHF.val =
      (if b[4].val < 128 then (b[4].val : Int) else (b[4].val : Int) - 256) ∧
    (MAX31856ReadRegisters M SPI b).1.REG.CJLF.val =
      (if b[5].val < 128 then (b[5].val : Int) else (b[5].val : Int) - 256) ∧
    (MAX31856ReadRegisters M SPI b).1.REG.LTHFT.H = b[6] ∧
    (MAX31856ReadRegisters M SPI b).1.REG.LTHFT.L = b[7] ∧
    (MAX31856ReadRegisters M SPI b).1.REG.LTLFT.H = b[8] ∧
    (MAX31856ReadRegisters M SPI b).1.REG.LTLFT.L = b[9] ∧
    (MAX31856ReadRegisters M SPI b).1.REG.CJTO.val =
      (if b[10].val < 128 then (b[10].val : Int) else (b[10].val : Int) - 256) ∧
    (MAX31856ReadRegisters M SPI b).1.REG.CJT.H = b[11] ∧
    (MAX31856ReadRegisters M SPI b).1.REG.CJT.L = b[12] ∧
    (MAX31856ReadRegisters M SPI b).1.REG.LTC.H = b[13] ∧
    (MAX31856ReadRegisters M SPI b).1.REG.LTC.M = b[14] ∧
    (MAX31856ReadRegisters M SPI b).1.REG.LTC.L = b[15] ∧
    (MAX31856ReadRegisters M SPI b).1.REG.SR.WORD = b[16] ∧
    ∀ (M2 : MAX31856_REG_Struct) (SPI2 : SPIClass) (b2 : List byte), b2.length = 17 →
      b2.drop 1 = b.drop 1 →
      (MAX31856ReadRegisters M2 SPI2 b2).1.REG = (MAX31856ReadRegisters M SPI b).1.REG := by
  obtain ⟨b0, b1, b2, b3, b4, b5, b6, b7, b8, b9, b10, b11, b12, b13, b14, b15, b16, rfl⟩ :=
    length_eq_seventeen b h
  refine ⟨rfl, rfl, rfl, toInt8_val _, toInt8_val _, rfl, rfl, rfl, rfl, toInt8_val _,
    rfl, rfl, rfl, rfl, rfl, rfl, ?_⟩
  intro M2 SPI2 c hc hd
  obtain ⟨c0, c1, c2, c3, c4, c5, c6, c7, c8, c9, c10, c11, c12, c13, c14, c15, c16, rfl⟩ :=
    length_eq_seventeen c hc
  simp only [List.drop_succ_cons, List.drop_zero] at hd
  simp only [MAX31856ReadRegisters, MAX31856ReadRegisters.BufferIn]
  rw [List.take_of_length_le (by simp), List.take_of_length_le (by simp)]
  simp only [List.cons.injEq] at hd
  obtain ⟨rfl, rfl, rfl, rfl, rfl, rfl, rfl, rfl, rfl, rfl, rfl, rfl, rfl, rfl, rfl, rfl, -⟩ := hd
  rfl

/-- Witness of C2: the all-`0xFF` response of seventeen bytes read into the global instance. -/
theorem C2_ReadRegisters_positional_witness :
    (List.replicate 17 (0xFF : byte)).length = 17 ∧
    (MAX31856ReadRegisters MAX31856 ⟨[]⟩ (List.replicate 17 0xFF)).1.REG.CR0.WORD = 0xFF ∧
    (MAX31856ReadRegisters MAX31856 ⟨[]⟩ (List.replicate 17 0xFF)).1.REG.SR.WORD = 0xFF :=
  ⟨by decide,
    (C2_ReadRegisters_positional MAX31856 ⟨[]⟩ (List.replicate 17 0xFF) (by decide)).1,
    (C2_ReadRegisters_positional MAX31856 ⟨[]⟩ (List.replicate 17 0xFF)
      (by decide)).2.2.2.2.2.2.2.2.2.2.2.2.2.2.2.1⟩

/-! ## Round trip through the wire format -/

/-- C3: the 13 bytes built by `MAX31856WriteRegisters` for an image `img`, followed by any four
bytes for `LTC.H`, `LTC.M`, `LTC.L`, `SR`, are decoded by `MAX31856ReadRegisters` (from any prior
state) to an image whose twelve writable registers are those of `img`. -/
theorem C3_write_read_roundtrip (img M0 : MAX31856_REG_Struct) (SPI : SPIClass)
    (r13 r14 r15 r16 : byte) :
    (MAX31856ReadRegisters M0 SPI
        (MAX31856WriteRegisters.BufferOut img ++ [r13, r14, r15, r16])).1.REG =
      { img.REG with LTC := ⟨r13, r14, r15⟩, SR := ⟨r16⟩ } := by
  simp only [MAX31856ReadRegisters, MAX31856ReadRegisters.BufferIn,
    MAX31856WriteRegisters.BufferOut]
  rw [List.take_of_length_le (by simp)]
  simp [toInt8_toUInt8]

/-! ## The linearised thermocouple temperature -/

theorem land_bit23_ne_zero_iff (u : Nat) : u &&& 0x800000 ≠ 0 ↔ u / 2 ^ 23 % 2 = 1 := by
  have e : (0x800000 : Nat) = 2 ^ 23 := by norm_num
  rw [e, Nat.and_two_pow, Nat.testBit_to_div_mod]
  by_cases c : u / 2 ^ 23 % 2 = 1 <;> simp [c]

theorem lor_high_byte (u : Nat) (h : u < 2 ^ 24) : u ||| 0xFF000000 = 0xFF000000 + u := by
  have e : (0xFF000000 : Nat) = 2 ^ 24 * 255 := by norm_num
  rw [e, Nat.mul_add_lt_is_or h, Nat.lor_comm]

/-- The three bytes of `LTC` joined by shifts and ors are the number `H·65536 + M·256 + L`. -/
theorem LTC_word_eq (LTC : Reg24) :
    LTC.H.val <<< 16 ||| LTC.M.val <<< 8 ||| LTC.L.val =
      LTC.H.val * 65536 + LTC.M.val * 256 + LTC.L.val := by
  have hH := LTC.H.isLt
  have hM := LTC.M.isLt
  have hL := LTC.L.isLt
  have a1 : LTC.H.val <<< 16 ||| LTC.M.val <<< 8 = 2 ^ 8 * (LTC.H.val * 256 + LTC.M.val) := by
    rw [Nat.shiftLeft_eq, Nat.shiftLeft_eq, Nat.mul_comm LTC.H.val,
      ← Nat.mul_add_lt_is_or (by omega)]
    omega
  rw [a1, ← Nat.mul_add_lt_is_or (by omega)]
  omega

/-- The sign fix maps a 24-bit word to its two's-complement value. -/
theorem MAX31856Calculate.fixSign_eq (u : Nat) (hu24 : u < 2 ^ 24) :
    MAX31856Calculate.fixSign (u : Int) = if u < 2 ^ 23 then (u : Int) else (u : Int) - 2 ^ 24 := by
  have t1 : toUInt32 (u : Int) = u := by simp only [toUInt32]; omega
  have key : (u &&& 0x800000 ≠ 0) ↔ ¬ u < 2 ^ 23 := by
    rw [land_bit23_ne_zero_iff]; omega
  unfold MAX31856Calculate.fixSign
  rw [t1]
  by_cases c : u < 2 ^ 23
  · have nc : ¬ (u &&& 0x800000 ≠ 0) := fun h => (key.mp h) c
    rw [if_neg nc, if_pos c]
  · have pc : u &&& 0x800000 ≠ 0 := key.mpr c
    rw [if_pos pc, if_neg c, lor_high_byte u hu24]
    simp only [toInt32]
    omega

/-- The value of `temp` after the shift is the floor of `s / 32`, where `s` is the 24-bit
two's-complement value of `u = H·65536 + M·256 + L`. -/
theorem MAX31856Calculate.temp_eq (LTC : Reg24) :
    MAX31856Calculate.temp LTC =
      (if LTC.H.val * 65536 + LTC.M.val * 256 + LTC.L.val < 2 ^ 23 then
          ((LTC.H.val * 65536 + LTC.M.val * 256 + LTC.L.val : Nat) : Int)
        else ((LTC.H.val * 65536 + LTC.M.val * 256 + LTC.L.val : Nat) : Int) - 2 ^ 24) / 32 := by
  have hH := LTC.H.isLt
  have hM := LTC.M.isLt
  have hL := LTC.L.isLt
  unfold MAX31856Calculate.temp
  rw [LTC_word_eq]
  generalize hu : LTC.H.val * 65536 + LTC.M.val * 256 + LTC.L.val = u
  have hu24 : u < 2 ^ 24 := by omega
  have t0 : toInt32 (u : Int) = (u : Int) := by simp only [toInt32]; omega
  simp only [t0, MAX31856Calculate.fixSign_eq u hu24, Int.shiftRight_eq_div_pow]
  norm_num

/-- C4: for all bytes `H`, `M`, `L` of `LTC`, `MAX31856Calculate` sets
`LTCT = floor(s / 32) × 0.0078125`, where `u = H·65536 + M·256 + L` and `s` is `u` when bit 23 is
clear and `u − 2^24` when it is set; clearing the five low bits of `L` does not change the
result. -/
theorem C4_LTCT_formula (M : MAX31856_REG_Struct) :
    (MAX31856Calculate M).LTCT =
      (⌊(((if M.REG.LTC.H.val * 65536 + M.REG.LTC.M.val * 256 + M.REG.LTC.L.val < 2 ^ 23 then
            ((M.REG.LTC.H.val * 65536 + M.REG.LTC.M.val * 256 + M.REG.LTC.L.val : Nat) : Int)
          else
            ((M.REG.LTC.H.val * 65536 + M.REG.LTC.M.val * 256 + M.REG.LTC.L.val : Nat) : Int)
              - 2 ^ 24 : Int) : ℚ) / 32)⌋ : ℚ) * 0.0078125 ∧
    (MAX31856Calculate
        { M with REG := { M.REG with LTC := { M.REG.LTC with
            L := ⟨M.REG.LTC.L.val / 32 * 32, by omega⟩ } } }).LTCT =
      (MAX31856Calculate M).LTCT := by
  have fl : ∀ s : Int, ⌊(s : ℚ) / 32⌋ = s / 32 := fun s => by
    simpa using Rat.floor_intCast_div_natCast s 32
  constructor
  · simp only [MAX31856Calculate, MAX31856Calculate.temp_eq, fl]
  · have hL := M.REG.LTC.L.isLt
    simp only [MAX31856Calculate, MAX31856Calculate.temp_eq]
    congr 2
    split <;> split <;> omega

theorem MAX31856Calculate.temp_zero : MAX31856Calculate.temp ⟨0x00, 0x00, 0x00⟩ = 0 := by
  decide

theorem MAX31856Calculate.temp_0x19 : MAX31856Calculate.temp ⟨0x19, 0x00, 0x00⟩ = 51200 := by
  decide

theorem MAX31856Calculate.temp_0xE7 : MAX31856Calculate.temp ⟨0xE7, 0x00, 0x00⟩ = -51200 := by
  decide

/-- C5, as stated, fails: on the global instance with `LTC` bytes `0x19, 0x00, 0x00` the
computed `LTCT` is `400`, not `200`, and with `0xE7, 0x00, 0x00` it is `−400`, not `−200`. -/
theorem C5_LTCT_examples_counterexample :
    (MAX31856Calculate
        { MAX31856 with REG := { MAX31856.REG with LTC := ⟨0x19, 0x00, 0x00⟩ } }).LTCT ≠ 200 ∧
    (MAX31856Calculate
        { MAX31856 with REG := { MAX31856.REG with LTC := ⟨0xE7, 0x00, 0x00⟩ } }).LTCT ≠ -200 := by
  simp only [MAX31856Calculate, MAX31856Calculate.temp_0x19, MAX31856Calculate.temp_0xE7]
  norm_num

/-- C5, amended: `LTC` bytes `0x00, 0x00, 0x00` give `LTCT = 0`; `0x19, 0x00, 0x00` give
`LTCT = 400`; `0xE7, 0x00, 0x00` give `LTCT = −400`, the same magnitude with opposite sign. -/
theorem C5_LTCT_examples (M : MAX31856_REG_Struct) :
    (MAX31856Calculate { M with REG := { M.REG with LTC := ⟨0x00, 0x00, 0x00⟩ } }).LTCT = 0 ∧
    (MAX31856Calculate { M with REG := { M.REG with LTC := ⟨0x19, 0x00, 0x00⟩ } }).LTCT = 400 ∧
    (MAX31856Calculate { M with REG := { M.REG with LTC := ⟨0xE7, 0x00, 0x00⟩ } }).LTCT = -400 := by
  simp only [MAX31856Calculate, MAX31856Calculate.temp_zero, MAX31856Calculate.temp_0x19,
    MAX31856Calculate.temp_0xE7]
  norm_num

/-! ## The scaled registers -/

/-- C6: for every register image `MAX31856Calculate` yields `CJT = s16(CJT.H, CJT.L) × 0.00390625`,
`LTHFT = s16(LTHFT.H, LTHFT.L) × 0.0625`, `LTLFT = s16(LTLFT.H, LTLFT.L) × 0.0625`,
`CJTO = s8(CJTO) × 0.0625`, `CJHF = s8(CJHF)`, `CJLF = s8(CJLF)`, with `s16(H, L)` the signed
value of the word `H·256 + L` and `s8` the signed value of the register's byte; `CJT` bytes
`0x01, 0x00` give `1` and `LTHFT` bytes `0x00, 0x10` give `1`. -/
theorem C6_scaled_values (M : MAX31856_REG_Struct) :
    (MAX31856Calculate M).CJT =
      ((if M.REG.CJT.H.val * 256 + M.REG.CJT.L.val < 32768 then
          ((M.REG.CJT.H.val * 256 + M.REG.CJT.L.val : Nat) : Int)
        else ((M.REG.CJT.H.val * 256 + M.REG.CJT.L.val : Nat) : Int) - 65536 : Int) : ℚ)
        * 0.00390625 ∧
    (MAX31856Calculate M).LTHFT =
      ((if M.REG.LTHFT.H.val * 256 + M.REG.LTHFT.L.val < 32768 then
          ((M.REG.LTHFT.H.val * 256 + M.REG.LTHFT.L.val : Nat) : Int)
        else ((M.REG.LTHFT.H.val * 256 + M.REG.LTHFT.L.val : Nat) : Int) - 65536 : Int) : ℚ)
        * 0.0625 ∧
    (MAX31856Calculate M).LTLFT =
      ((if M.REG.LTLFT.H.val * 256 + M.REG.LTLFT.L.val < 32768 then
          ((M.REG.LTLFT.H.val * 256 + M.REG.LTLFT.L.val : Nat) : Int)
        else ((M.REG.LTLFT.H.val * 256 + M.REG.LTLFT.L.val : Nat) : Int) - 65536 : Int) : ℚ)
        * 0.0625 ∧
    (MAX31856Calculate M).CJTO =
      ((if (toUInt8 M.REG.CJTO.val).val < 128 then ((toUInt8 M.REG.CJTO.val).val : Int)
        else ((toUInt8 M.REG.CJTO.val).val : Int) - 256 : Int) : ℚ) * 0.0625 ∧
    (MAX31856Calculate M).CJHF =
      ((if (toUInt8 M.REG.CJHF.val).val < 128 then ((toUInt8 M.REG.CJHF.val).val : Int)
        else ((toUInt8 M.REG.CJHF.val).val : Int) - 256 : Int) : ℚ) ∧
    (MAX31856Calculate M).CJLF =
      ((if (toUInt8 M.REG.CJLF.val).val < 128 then ((toUInt8 M.REG.CJLF.val).val : Int)
        else ((toUInt8 M.REG.CJLF.val).val : Int) - 256 : Int) : ℚ) ∧
    (MAX31856Calculate { M with REG := { M.REG with CJT := ⟨0x01, 0x00⟩ } }).CJT = 1 ∧
    (MAX31856Calculate { M with REG := { M.REG with LTHFT := ⟨0x00, 0x10⟩ } }).LTHFT = 1 := by
  have s8 : ∀ x : int8_t,
      (if (toUInt8 x.val).val < 128 then ((toUInt8 x.val).val : Int)
        else ((toUInt8 x.val).val : Int) - 256) = x.val := fun x => by
    rw [← toInt8_val, toInt8_toUInt8]
  have e1 : Reg16.int16 ⟨0x01, 0x00⟩ = 256 := by decide
  have e2 : Reg16.int16 ⟨0x00, 0x10⟩ = 16 := by decide
  refine ⟨?_, ?_, ?_, ?_, ?_, ?_, ?_, ?_⟩
  · simp only [MAX31856Calculate, Reg16.int16_eq]
  · simp only [MAX31856Calculate, Reg16.int16_eq]
  · simp only [MAX31856Calculate, Reg16.int16_eq]
  · simp only [MAX31856Calculate, s8]
  · simp only [MAX31856Calculate, s8]
  · simp only [MAX31856Calculate, s8]
  · simp only [MAX31856Calculate, e1]; norm_num
  · simp only [MAX31856Calculate, e2]; norm_num

/-! ## Factory defaults on the wire -/

/-- C7: for every prior state, after `MAX31856SetFactoryDefault` the write buffer of the image
is `0x80, 0x00, 0x03, 0xFF, 0x7F, 0xC0, 0x7F, 0xFF, 0x80, 0x00, 0x00, 0x00, 0x00`. -/
theorem C7_factory_default_buffer (M : MAX31856_REG_Struct) (SPI : SPIClass) :
    MAX31856WriteRegisters.BufferOut (MAX31856SetFactoryDefault M SPI).1 =
      [0x80, 0x00, 0x03, 0xFF, 0x7F, 0xC0, 0x7F, 0xFF, 0x80, 0x00, 0x00, 0x00, 0x00] := by
  simp only [MAX31856SetFactoryDefault, MAX31856WriteRegisters.BufferOut]
  decide

/-! ## Assignment to the averaging selector -/

/-- C8, as stated, fails: assigning `9` to `CR1.AVGSEL` of the register `0x00` is not rejected;
the register becomes `0x10` and the field reads `9 mod 8 = 1`. -/
theorem C8_AVGSEL_out_of_range_counterexample :
    Reg8.setAVGSEL ⟨0x00⟩ 9 ≠ ⟨0x00⟩ ∧
    Reg8.setAVGSEL ⟨0x00⟩ 9 = ⟨0x10⟩ ∧
    (Reg8.setAVGSEL ⟨0x00⟩ 9).AVGSEL = 9 % 8 := by
  decide

/-- C8, amended: assigning `7` to `CR1.AVGSEL` makes the field read `7`, which
`MAX31856GetREGMapStringCR1` reports as 16 samples; assigning any value `v` is accepted, the
field then reads `v mod 8` and the other two fields of `CR1` are unchanged. -/
theorem C8_AVGSEL_assignment (M : MAX31856_REG_Struct) (v : Nat) :
    (M.REG.CR1.setAVGSEL 7).AVGSEL = 7 ∧
    MAX31856GetREGMapStringCR1.AveragedSamples
        { M with REG := { M.REG with CR1 := M.REG.CR1.setAVGSEL 7 } } =
      ("\tAVGSEL: 16 Sample Averaging Enabled\r\n", 16) ∧
    (M.REG.CR1.setAVGSEL v).AVGSEL = v % 8 ∧
    (M.REG.CR1.setAVGSEL v).TCTYPE = M.REG.CR1.TCTYPE ∧
    (M.REG.CR1.setAVGSEL v).Reserved7 = M.REG.CR1.Reserved7 := by
  have hw := M.REG.CR1.WORD.isLt
  have get_set : ∀ v : Nat, (M.REG.CR1.setAVGSEL v).AVGSEL = v % 8 := fun v => by
    simp only [Reg8.setAVGSEL, Reg8.AVGSEL, getBits, setBits, Fin.ofNat, Fin.val_mk]
    omega
  refine ⟨get_set 7, ?_, get_set v, ?_, ?_⟩
  · unfold MAX31856GetREGMapStringCR1.AveragedSamples
    simp only [get_set 7]
    rfl
  · simp only [Reg8.setAVGSEL, Reg8.TCTYPE, getBits, setBits, Fin.ofNat, Fin.val_mk]
    omega
  · simp only [Reg8.setAVGSEL, Reg8.Reserved7, getBits, setBits, Fin.ofNat, Fin.val_mk]
    omega

/-! ## Recomputation of the derived values -/

/-- C10: `MAX31856Calculate` recomputes the derived values from the registers alone: two states
with equal registers are equal after the call, whatever their derived values were before; the
call leaves the registers unchanged, and a second call changes nothing. -/
theorem C10_Calculate_recomputes (M1 M2 : MAX31856_REG_Struct) (h : M1.REG = M2.REG) :
    (MAX31856Calculate M1).CJHF = (MAX31856Calculate M2).CJHF ∧
    (MAX31856Calculate M1).CJLF = (MAX31856Calculate M2).CJLF ∧
    (MAX31856Calculate M1).LTHFT = (MAX31856Calculate M2).LTHFT ∧
    (MAX31856Calculate M1).LTLFT = (MAX31856Calculate M2).LTLFT ∧
    (MAX31856Calculate M1).CJTO = (MAX31856Calculate M2).CJTO ∧
    (MAX31856Calculate M1).CJT = (MAX31856Calculate M2).CJT ∧
    (MAX31856Calculate M1).LTCT = (MAX31856Calculate M2).LTCT ∧
    (MAX31856Calculate M1).REG = M1.REG ∧
    MAX31856Calculate (MAX31856Calculate M1) = MAX31856Calculate M1 := by
  simp only [MAX31856Calculate, h, and_self]

/-- Witness of C10: the global instance and a copy of it with other derived values. -/
theorem C10_Calculate_recomputes_witness :
    ({ MAX31856 with CJT := 6, LTCT := 7 } : MAX31856_REG_Struct).REG = MAX31856.REG ∧
    (MAX31856Calculate { MAX31856 with CJT := 6, LTCT := 7 }).LTCT =
      (MAX31856Calculate MAX31856).LTCT :=
  ⟨rfl,
    (C10_Calculate_recomputes { MAX31856 with CJT := 6, LTCT := 7 } MAX31856
      rfl).2.2.2.2.2.2.1⟩

/-! ## The derived values are exact binary64 numbers -/

theorem isBinary64_of_int (q : ℚ) (n : Int) (h : q * 256 = (n : ℚ)) (hn : |n| < 2 ^ 53) :
    isBinary64 q := by
  unfold isBinary64
  rw [h]
  exact ⟨Rat.den_intCast n, by rw [Rat.num_intCast]; exact hn⟩

theorem Reg16.int16_bounds (r : Reg16) : -32768 ≤ r.int16 ∧ r.int16 ≤ 32767 := by
  simp only [Reg16.int16, toInt16]
  omega

theorem MAX31856Calculate.temp_bounds (LTC : Reg24) :
    -2 ^ 18 ≤ MAX31856Calculate.temp LTC ∧ MAX31856Calculate.temp LTC ≤ 2 ^ 18 - 1 := by
  have hH := LTC.H.isLt
  have hM := LTC.M.isLt
  have hL := LTC.L.isLt
  rw [MAX31856Calculate.temp_eq]
  split <;> omega

/-- Every value that `MAX31856Calculate` stores is a binary64 number, so the rational products
of the model are the values the `double` products of the source have. -/
theorem MAX31856Calculate.values_isBinary64 (M : MAX31856_REG_Struct) :
    isBinary64 (MAX31856Calculate M).CJHF ∧ isBinary64 (MAX31856Calculate M).CJLF ∧
    isBinary64 (MAX31856Calculate M).LTHFT ∧ isBinary64 (MAX31856Calculate M).LTLFT ∧
    isBinary64 (MAX31856Calculate M).CJTO ∧ isBinary64 (MAX31856Calculate M).CJT ∧
    isBinary64 (MAX31856Calculate M).LTCT := by
  have b1 := M.REG.CJHF.lo
  have b2 := M.REG.CJHF.hi
  have b3 := M.REG.CJLF.lo
  have b4 := M.REG.CJLF.hi
  have b5 := M.REG.CJTO.lo
  have b6 := M.REG.CJTO.hi
  have b7 := M.REG.LTHFT.int16_bounds
  have b8 := M.REG.LTLFT.int16_bounds
  have b9 := M.REG.CJT.int16_bounds
  have b10 := MAX31856Calculate.temp_bounds M.REG.LTC
  refine ⟨?_, ?_, ?_, ?_, ?_, ?_, ?_⟩
  · refine isBinary64_of_int _ (M.REG.CJHF.val * 256) ?_ ?_
    · simp only [MAX31856Calculate]; push_cast; ring
    · rw [abs_lt]; constructor <;> omega
  · refine isBinary64_of_int _ (M.REG.CJLF.val * 256) ?_ ?_
    · simp only [MAX31856Calculate]; push_cast; ring
    · rw [abs_lt]; constructor <;> omega
  · refine isBinary64_of_int _ (M.REG.LTHFT.int16 * 16) ?_ ?_
    · simp only [MAX31856Calculate]; push_cast; ring
    · rw [abs_lt]; constructor <;> omega
  · refine isBinary64_of_int _ (M.REG.LTLFT.int16 * 16) ?_ ?_
    · simp only [MAX31856Calculate]; push_cast; ring
    · rw [abs_lt]; constructor <;> omega
  · refine isBinary64_of_int _ (M.REG.CJTO.val * 16) ?_ ?_
    · simp only [MAX31856Calculate]; push_cast; ring
    · rw [abs_lt]; constructor <;> omega
  · refine isBinary64_of_int _ (M.REG.CJT.int16) ?_ ?_
    · simp only [MAX31856Calculate]; ring
    · rw [abs_lt]; constructor <;> omega
  · refine isBinary64_of_int _ (MAX31856Calculate.temp M.REG.LTC * 2) ?_ ?_
    · simp only [MAX31856Calculate]; push_cast; ring
    · rw [abs_lt]; constructor <;> omega

/-! ## Effects of the factory-default reset -/

/-- C11, as stated, fails: starting from the global instance and a bus on which nothing has been
sent, `MAX31856SetFactoryDefault` leaves a bus on which a buffer has been sent. -/
theorem C11_factory_default_bus_counterexample :
    (MAX31856SetFactoryDefault MAX31856 ⟨[]⟩).2.mosi ≠ [] ∧
    (MAX31856SetFactoryDefault MAX31856 ⟨[]⟩).2.mosi =
      [[0x80, 0x00, 0x03, 0xFF, 0x7F, 0xC0, 0x7F, 0xFF, 0x80, 0x00, 0x00, 0x00, 0x00]] := by
  decide

/-- C11, amended: for every prior state, `MAX31856SetFactoryDefault` leaves the seven derived
values unchanged, and its one effect on the bus is the transfer of one buffer, the 13-byte write
buffer of the default image. -/
theorem C11_factory_default_effects (M : MAX31856_REG_Struct) (SPI : SPIClass) :
    (MAX31856SetFactoryDefault M SPI).1.CJHF = M.CJHF ∧
    (MAX31856SetFactoryDefault M SPI).1.CJLF = M.CJLF ∧
    (MAX31856SetFactoryDefault M SPI).1.LTHFT = M.LTHFT ∧
    (MAX31856SetFactoryDefault M SPI).1.LTLFT = M.LTLFT ∧
    (MAX31856SetFactoryDefault M SPI).1.CJTO = M.CJTO ∧
    (MAX31856SetFactoryDefault M SPI).1.CJT = M.CJT ∧
    (MAX31856SetFactoryDefault M SPI).1.LTCT = M.LTCT ∧
    (MAX31856SetFactoryDefault M SPI).2.mosi =
      SPI.mosi ++
        [[0x80, 0x00, 0x03, 0xFF, 0x7F, 0xC0, 0x7F, 0xFF, 0x80, 0x00, 0x00, 0x00, 0x00]] := by
  refine ⟨rfl, rfl, rfl, rfl, rfl, rfl, rfl, ?_⟩
  simp only [MAX31856SetFactoryDefault, MAX31856WriteRegisters,
    MAX31856WriteRegisters.BufferOut]
  congr 2

/-! ## Bit-fields as views of the register byte -/

set_option maxHeartbeats 4000000 in
/-- C12: `CR0.WORD` and `CR1.WORD` are the weighted sums of their named fields; assigning a value
within its bit width to any one named field of `CR0`, `CR1` or `MASK` makes that field read the
value and leaves every other field of the register unchanged; replacing one of the three
registers in an image leaves the other registers unchanged; and from `CR0 = CR1 = 0x00` the
assignments `CMODE = 1`, `OCFAULT0 = 0`, `OCFAULT1 = 1`, `AVGSEL = 4` give `CR0 = 0xA0` and
`CR1 = 0x40`. -/
theorem C12_bitfields_independent (M : MAX31856_REG_Struct) (r c : Reg8) (b a t : Nat)
    (hb : b < 2) (ha : a < 8) (ht : t < 16) :
    (M.REG.CR0.WORD.val =
      128 * M.REG.CR0.CMODE + 64 * M.REG.CR0.ONESHOT + 32 * M.REG.CR0.OCFAULT1
        + 16 * M.REG.CR0.OCFAULT0 + 8 * M.REG.CR0.CJ + 4 * M.REG.CR0.FAULT
        + 2 * M.REG.CR0.FAULTCLR + M.REG.CR0.Hz50_60) ∧
    (M.REG.CR1.WORD.val =
      128 * M.REG.CR1.Reserved7 + 16 * M.REG.CR1.AVGSEL + M.REG.CR1.TCTYPE) ∧
    ((r.setHz50_60 b).Hz50_60 = b ∧
      ∀ g ∈ ([Reg8.FAULTCLR, Reg8.FAULT, Reg8.CJ, Reg8.OCFAULT0, Reg8.OCFAULT1, Reg8.ONESHOT,
          Reg8.CMODE] :
          List (Reg8 → Nat)),
        g (r.setHz50_60 b) = g r) ∧
    ((r.setFAULTCLR b).FAULTCLR = b ∧
      ∀ g ∈ ([Reg8.Hz50_60, Reg8.FAULT, Reg8.CJ, Reg8.OCFAULT0, Reg8.OCFAULT1, Reg8.ONESHOT,
          Reg8.CMODE] :
          List (Reg8 → Nat)),
        g (r.setFAULTCLR b) = g r) ∧
    ((r.setFAULT b).FAULT = b ∧
      ∀ g ∈ ([Reg8.Hz50_60, Reg8.FAULTCLR, Reg8.CJ, Reg8.OCFAULT0, Reg8.OCFAULT1, Reg8.ONESHOT,
          Reg8.CMODE] :
          List (Reg8 → Nat)),
        g (r.setFAULT b) = g r) ∧
    ((r.setCJ b).CJ = b ∧
      ∀ g ∈ ([Reg8.Hz50_60, Reg8.FAULTCLR, Reg8.FAULT, Reg8.OCFAULT0, Reg8.OCFAULT1, Reg8.ONESHOT,
          Reg8.CMODE] :
          List (Reg8 → Nat)),
        g (r.setCJ b) = g r) ∧
    ((r.setOCFAULT0 b).OCFAULT0 = b ∧
      ∀ g ∈ ([Reg8.Hz50_60, Reg8.FAULTCLR, Reg8.FAULT, Reg8.CJ, Reg8.OCFAULT1, Reg8.ONESHOT,
          Reg8.CMODE] :
          List (Reg8 → Nat)),
        g (r.setOCFAULT0 b) = g r) ∧
    ((r.setOCFAULT1 b).OCFAULT1 = b ∧
      ∀ g ∈ ([Reg8.Hz50_60, Reg8.FAULTCLR, Reg8.FAULT, Reg8.CJ, Reg8.OCFAULT0, Reg8.ONESHOT,
          Reg8.CMODE] :
          List (Reg8 → Nat)),
        g (r.setOCFAULT1 b) = g r) ∧
    ((r.setONESHOT b).ONESHOT = b ∧
      ∀ g ∈ ([Reg8.Hz50_60, Reg8.FAULTCLR, Reg8.FAULT, Reg8.CJ, Reg8.OCFAULT0, Reg8.OCFAULT1,
          Reg8.CMODE] :
          List (Reg8 → Nat)),
        g (r.setONESHOT b) = g r) ∧
    ((r.setCMODE b).CMODE = b ∧
      ∀ g ∈ ([Reg8.Hz50_60, Reg8.FAULTCLR, Reg8.FAULT, Reg8.CJ, Reg8.OCFAULT0, Reg8.OCFAULT1,
          Reg8.ONESHOT] :
          List (Reg8 → Nat)),
        g (r.setCMODE b) = g r) ∧
    ((r.setTCTYPE t).TCTYPE = t ∧
      ∀ g ∈ ([Reg8.AVGSEL, Reg8.Reserved7] :
          List (Reg8 → Nat)),
        g (r.setTCTYPE t) = g r) ∧
    ((r.setAVGSEL a).AVGSEL = a ∧
      ∀ g ∈ ([Reg8.TCTYPE, Reg8.Reserved7] :
          List (Reg8 → Nat)),
        g (r.setAVGSEL a) = g r) ∧
    ((r.setReserved7 b).Reserved7 = b ∧
      ∀ g ∈ ([Reg8.TCTYPE, Reg8.AVGSEL] :
          List (Reg8 → Nat)),
        g (r.setReserved7 b) = g r) ∧
    ((r.setOPEN_FAULT_MASK b).OPEN_FAULT_MASK = b ∧
      ∀ g ∈ ([Reg8.OV_UV_FAULT_MASK, Reg8.TC_LOW_FAULT_MASK, Reg8.TC_HIGH_FAULT_MASK,
          Reg8.CJ_LOW_FAULT_MASK, Reg8.CJ_HIGH_FAULT_MASK, Reg8.Reserved6,
          Reg8.Reserved7] :
          List (Reg8 → Nat)),
        g (r.setOPEN_FAULT_MASK b) = g r) ∧
    ((r.setOV_UV_FAULT_MASK b).OV_UV_FAULT_MASK = b ∧
      ∀ g ∈ ([Reg8.OPEN_FAULT_MASK, Reg8.TC_LOW_FAULT_MASK, Reg8.TC_HIGH_FAULT_MASK,
          Reg8.CJ_LOW_FAULT_MASK, Reg8.CJ_HIGH_FAULT_MASK, Reg8.Reserved6,
          Reg8.Reserved7] :
          List (Reg8 → Nat)),
        g (r.setOV_UV_FAULT_MASK b) = g r) ∧
    ((r.setTC_LOW_FAULT_MASK b).TC_LOW_FAULT_MASK = b ∧
      ∀ g ∈ ([Reg8.OPEN_FAULT_MASK, Reg8.OV_UV_FAULT_MASK, Reg8.TC_HIGH_FAULT_MASK,
          Reg8.CJ_LOW_FAULT_MASK, Reg8.CJ_HIGH_FAULT_MASK, Reg8.Reserved6,
          Reg8.Reserved7] :
          List (Reg8 → Nat)),
        g (r.setTC_LOW_FAULT_MASK b) = g r) ∧
    ((r.setTC_HIGH_FAULT_MASK b).TC_HIGH_FAULT_MASK = b ∧
      ∀ g ∈ ([Reg8.OPEN_FAULT_MASK, Reg8.OV_UV_FAULT_MASK, Reg8.TC_LOW_FAULT_MASK,
          Reg8.CJ_LOW_FAULT_MASK, Reg8.CJ_HIGH_FAULT_MASK, Reg8.Reserved6,
          Reg8.Reserved7] :
          List (Reg8 → Nat)),
        g (r.setTC_HIGH_FAULT_MASK b) = g r) ∧
    ((r.setCJ_LOW_FAULT_MASK b).CJ_LOW_FAULT_MASK = b ∧
      ∀ g ∈ ([Reg8.OPEN_FAULT_MASK, Reg8.OV_UV_FAULT_MASK, Reg8.TC_LOW_FAULT_MASK,
          Reg8.TC_HIGH_FAULT_MASK, Reg8.CJ_HIGH_FAULT_MASK, Reg8.Reserved6,
          Reg8.Reserved7] :
          List (Reg8 → Nat)),
        g (r.setCJ_LOW_FAULT_MASK b) = g r) ∧
    ((r.setCJ_HIGH_FAULT_MASK b).CJ_HIGH_FAULT_MASK = b ∧
      ∀ g ∈ ([Reg8.OPEN_FAULT_MASK, Reg8.OV_UV_FAULT_MASK, Reg8.TC_LOW_FAULT_MASK,
          Reg8.TC_HIGH_FAULT_MASK, Reg8.CJ_LOW_FAULT_MASK, Reg8.Reserved6,
          Reg8.Reserved7] :
          List (Reg8 → Nat)),
        g (r.setCJ_HIGH_FAULT_MASK b) = g r) ∧
    ((r.setReserved6 b).Reserved6 = b ∧
      ∀ g ∈ ([Reg8.OPEN_FAULT_MASK, Reg8.OV_UV_FAULT_MASK, Reg8.TC_LOW_FAULT_MASK,
          Reg8.TC_HIGH_FAULT_MASK, Reg8.CJ_LOW_FAULT_MASK, Reg8.CJ_HIGH_FAULT_MASK,
          Reg8.Reserved7] :
          List (Reg8 → Nat)),
        g (r.setReserved6 b) = g r) ∧
    ((r.setReserved7 b).Reserved7 = b ∧
      ∀ g ∈ ([Reg8.OPEN_FAULT_MASK, Reg8.OV_UV_FAULT_MASK, Reg8.TC_LOW_FAULT_MASK,
          Reg8.TC_HIGH_FAULT_MASK, Reg8.CJ_LOW_FAULT_MASK, Reg8.CJ_HIGH_FAULT_MASK,
          Reg8.Reserved6] :
          List (Reg8 → Nat)),
        g (r.setReserved7 b) = g r) ∧
    ({ M.REG with CR0 := c } : MAX31856_REG_MAP_Struct) =
      ⟨c, M.REG.CR1, M.REG.MASK, M.REG.CJHF, M.REG.CJLF, M.REG.LTHFT, M.REG.LTLFT, M.REG.CJTO,
        M.REG.CJT, M.REG.LTC, M.REG.SR⟩ ∧
    ({ M.REG with CR1 := c } : MAX31856_REG_MAP_Struct) =
      ⟨M.REG.CR0, c, M.REG.MASK, M.REG.CJHF, M.REG.CJLF, M.REG.LTHFT, M.REG.LTLFT, M.REG.CJTO,
        M.REG.CJT, M.REG.LTC, M.REG.SR⟩ ∧
    ({ M.REG with MASK := c } : MAX31856_REG_MAP_Struct) =
      ⟨M.REG.CR0, M.REG.CR1, c, M.REG.CJHF, M.REG.CJLF, M.REG.LTHFT, M.REG.LTLFT, M.REG.CJTO,
        M.REG.CJT, M.REG.LTC, M.REG.SR⟩ ∧
    (((⟨0x00⟩ : Reg8).setCMODE 1).setOCFAULT0 0).setOCFAULT1 1 = ⟨0xA0⟩ ∧
    (⟨0x00⟩ : Reg8).setAVGSEL 4 = ⟨0x40⟩ := by
  have h0 := M.REG.CR0.WORD.isLt
  have h1 := M.REG.CR1.WORD.isLt
  have hr := r.WORD.isLt
  refine ⟨?_, ?_, ?_, ?_, ?_, ?_, ?_, ?_, ?_, ?_, ?_, ?_, ?_, ?_, ?_, ?_, ?_, ?_, ?_, ?_, ?_, ?_, ?_, ?_, ?_, ?_⟩
  iterate 21
    simp only [List.forall_mem_cons, List.not_mem_nil, false_implies, implies_true, and_true,
      Reg8.AVGSEL, Reg8.CJ, Reg8.CJ_HIGH_FAULT_MASK, Reg8.CJ_LOW_FAULT_MASK, Reg8.CMODE,
      Reg8.FAULT, Reg8.FAULTCLR, Reg8.Hz50_60, Reg8.OCFAULT0, Reg8.OCFAULT1, Reg8.ONESHOT,
      Reg8.OPEN_FAULT_MASK, Reg8.OV_UV_FAULT_MASK, Reg8.Reserved6, Reg8.Reserved7,
      Reg8.TCTYPE, Reg8.TC_HIGH_FAULT_MASK, Reg8.TC_LOW_FAULT_MASK, Reg8.setAVGSEL,
      Reg8.setCJ, Reg8.setCJ_HIGH_FAULT_MASK, Reg8.setCJ_LOW_FAULT_MASK, Reg8.setCMODE,
      Reg8.setFAULT, Reg8.setFAULTCLR, Reg8.setHz50_60, Reg8.setOCFAULT0, Reg8.setOCFAULT1,
      Reg8.setONESHOT, Reg8.setOPEN_FAULT_MASK, Reg8.setOV_UV_FAULT_MASK, Reg8.setReserved6,
      Reg8.setReserved7, Reg8.setTCTYPE, Reg8.setTC_HIGH_FAULT_MASK,
      Reg8.setTC_LOW_FAULT_MASK,
      getBits, setBits, Fin.ofNat, Fin.val_mk]
    omega
  · rfl
  · rfl
  · rfl
  · decide
  · decide

/-- Witness of C12: the register `0x03` with the field values `1`, `7` and `15`. -/
theorem C12_bitfields_independent_witness :
    (1 < 2 ∧ 7 < 8 ∧ 15 < 16) ∧
    ((⟨0x03⟩ : Reg8).setAVGSEL 7).AVGSEL = 7 :=
  ⟨by decide,
    (C12_bitfields_independent MAX31856 ⟨0x03⟩ ⟨0x00⟩ 1 7 15 (by decide) (by decide)
      (by decide)).2.2.2.2.2.2.2.2.2.2.2.1.1⟩

/-! ## The sample-averaging report -/

/-- C13: for every `CR1` byte the field `AVGSEL` is bits 6..4 of the byte, and the averaged-sample
count derived from it is `1`, `2`, `4`, `8` for `0`, `1`, `2`, `3` and `16` for `4` to `7`; the
count is never `0` and the text is never the one of the `ERROR` branch. -/
theorem C13_AveragedSamples_count (M : MAX31856_REG_Struct) :
    M.REG.CR1.AVGSEL = M.REG.CR1.WORD.val / 16 % 8 ∧
    (MAX31856GetREGMapStringCR1.AveragedSamples M).2 =
      [1, 2, 4, 8, 16, 16, 16, 16].getD M.REG.CR1.AVGSEL 0 ∧
    (MAX31856GetREGMapStringCR1.AveragedSamples M).2 ≠ 0 ∧
    (MAX31856GetREGMapStringCR1.AveragedSamples M).1 ≠
      "\tAVGSEL: ERROR detecing sample averaging status\r\n" := by
  have hlt : M.REG.CR1.AVGSEL < 8 := by
    simp only [Reg8.AVGSEL, getBits]
    omega
  refine ⟨by simp only [Reg8.AVGSEL, getBits]; norm_num, ?_⟩
  unfold MAX31856GetREGMapStringCR1.AveragedSamples
  generalize M.REG.CR1.AVGSEL = a at hlt ⊢
  interval_cases a <;> simp

/-! ## The `CR0` report and the global instance -/

set_option maxRecDepth 20000 in
/-- C14 fails on the code: the text appended by `MAX31856GetREGMapStringCR0` does not depend on
the instance `M` passed to it but on the global instance. With `M` holding `CR0 = 0x80`
(continuous conversion) and the global instance holding `CR0 = 0x00`, the report is the one of
`CR0 = 0x00`; changing only the global instance to `CR0 = 0x80` changes the report of the same
`M`. -/
theorem C14_CR0_report_reads_global :
    (∀ (s : String) (M1 M2 global : MAX31856_REG_Struct),
      MAX31856GetREGMapStringCR0 s M1 global = MAX31856GetREGMapStringCR0 s M2 global) ∧
    MAX31856GetREGMapStringCR0 "" { MAX31856 with REG := { MAX31856.REG with CR0 := ⟨0x80⟩ } }
        MAX31856 =
      "CR0 (Configuration Register)\r\n\tMODE\t\tNormally Off (One Shot)\t*Default\r\n\t1SHOT\t\tNo conversion active\t*Default\r\n\tOCFAULT\tOpen Circuit Detection DISABLED\r\n\tCJ\t\tCJ ENABLED\t*Default\r\n\tFAULT\t\tFAULT pin and fault bits are automatically Reset\t*Default\r\n\tFAULTCLR\tN/A: No effect in FAULT mode 0\t*Default\r\n\t50/60Hz\t60hz notch filter\t*Default\r\n" ∧
    MAX31856GetREGMapStringCR0 "" { MAX31856 with REG := { MAX31856.REG with CR0 := ⟨0x80⟩ } }
        { MAX31856 with REG := { MAX31856.REG with CR0 := ⟨0x80⟩ } } ≠
      MAX31856GetREGMapStringCR0 "" { MAX31856 with REG := { MAX31856.REG with CR0 := ⟨0x80⟩ } }
        MAX31856 := by
  refine ⟨fun _ _ _ _ => rfl, ?_, ?_⟩
  · decide
  · decide

/-! ## Decoding and re-encoding the wire bytes -/

/-- C15: for every 17-byte buffer `b`, reading `b` with `MAX31856ReadRegisters` and building the
write buffer of the resulting image gives `0x80` followed by `b[1]` to `b[12]`. -/
theorem C15_read_write_roundtrip (M : MAX31856_REG_Struct) (SPI : SPIClass) (b : List byte)
    (h : b.length = 17) :
    MAX31856WriteRegisters.BufferOut (MAX31856ReadRegisters M SPI b).1 =
      [0x80, b[1], b[2], b[3], b[4], b[5], b[6], b[7], b[8], b[9], b[10], b[11], b[12]] := by
  obtain ⟨b0, b1, b2, b3, b4, b5, b6, b7, b8, b9, b10, b11, b12, b13, b14, b15, b16, rfl⟩ :=
    length_eq_seventeen b h
  simp only [MAX31856WriteRegisters.BufferOut, MAX31856ReadRegisters,
    MAX31856ReadRegisters.BufferIn]
  rw [List.take_of_length_le (by simp)]
  simp [toUInt8_toInt8]

/-- Witness of C15: the bytes `0, 1, ..., 16` read into the global instance. -/
theorem C15_read_write_roundtrip_witness :
    ([0, 1, 2, 3, 4, 5, 6, 7, 8, 9, 10, 11, 12, 13, 14, 15, 16] : List byte).length = 17 ∧
    MAX31856WriteRegisters.BufferOut
        (MAX31856ReadRegisters MAX31856 ⟨[]⟩
          [0, 1, 2, 3, 4, 5, 6, 7, 8, 9, 10, 11, 12, 13, 14, 15, 16]).1 =
      [0x80, 1, 2, 3, 4, 5, 6, 7, 8, 9, 10, 11, 12] :=
  ⟨rfl,
    C15_read_write_roundtrip MAX31856 ⟨[]⟩
      [0, 1, 2, 3, 4, 5, 6, 7, 8, 9, 10, 11, 12, 13, 14, 15, 16] rfl⟩

/-! ## Derived values of the factory defaults -/

/-- C16: for every prior state, after `MAX31856SetFactoryDefault` followed by
`MAX31856Calculate` the derived values are `CJHF = 127`, `CJLF = −64`, `LTHFT = 2047.9375`,
`LTLFT = −2048`, `CJTO = 0`, `CJT = 0` and `LTCT = 0`. -/
theorem C16_factory_default_values (M : MAX31856_REG_Struct) (SPI : SPIClass) :
    (MAX31856Calculate (MAX31856SetFactoryDefault M SPI).1).CJHF = 127 ∧
    (MAX31856Calculate (MAX31856SetFactoryDefault M SPI).1).CJLF = -64 ∧
    (MAX31856Calculate (MAX31856SetFactoryDefault M SPI).1).LTHFT = 2047.9375 ∧
    (MAX31856Calculate (MAX31856SetFactoryDefault M SPI).1).LTLFT = -2048 ∧
    (MAX31856Calculate (MAX31856SetFactoryDefault M SPI).1).CJTO = 0 ∧
    (MAX31856Calculate (MAX31856SetFactoryDefault M SPI).1).CJT = 0 ∧
    (MAX31856Calculate (MAX31856SetFactoryDefault M SPI).1).LTCT = 0 := by
  have e1 : (toInt8 0x7f).val = 127 := by decide
  have e2 : (toInt8 0xc0).val = -64 := by decide
  have e3 : (toInt8 0x00).val = 0 := by decide
  have e4 : Reg16.int16 ⟨0x7f, 0xff⟩ = 32767 := by decide
  have e5 : Reg16.int16 ⟨0x80, 0x00⟩ = -32768 := by decide
  have e6 : Reg16.int16 ⟨0x00, 0x00⟩ = 0 := by decide
  simp only [MAX31856Calculate, MAX31856SetFactoryDefault, e1, e2, e3, e4, e5, e6,
    MAX31856Calculate.temp_zero]
  norm_num

/-! ## Range and monotonicity of the linearised temperature -/

/-- C17: for all `LTC` bytes the computed `LTCT` is `k × 0.0078125` for an integer `k` with
`−2^18 ≤ k ≤ 2^18 − 1`, so `−2048 ≤ LTCT ≤ 2047.9921875`; and if the signed 24-bit value of
`H:M:L` of one image is at most that of another, so are their `LTCT`. -/
theorem C17_LTCT_range_monotone (M1 M2 : MAX31856_REG_Struct)
    (h :
      (if M1.REG.LTC.H.val * 65536 + M1.REG.LTC.M.val * 256 + M1.REG.LTC.L.val < 2 ^ 23 then
          ((M1.REG.LTC.H.val * 65536 + M1.REG.LTC.M.val * 256 + M1.REG.LTC.L.val : Nat) : Int)
        else
          ((M1.REG.LTC.H.val * 65536 + M1.REG.LTC.M.val * 256 + M1.REG.LTC.L.val : Nat) : Int)
            - 2 ^ 24) ≤
      (if M2.REG.LTC.H.val * 65536 + M2.REG.LTC.M.val * 256 + M2.REG.LTC.L.val < 2 ^ 23 then
          ((M2.REG.LTC.H.val * 65536 + M2.REG.LTC.M.val * 256 + M2.REG.LTC.L.val : Nat) : Int)
        else
          ((M2.REG.LTC.H.val * 65536 + M2.REG.LTC.M.val * 256 + M2.REG.LTC.L.val : Nat) : Int)
            - 2 ^ 24)) :
    (∃ k : Int, -2 ^ 18 ≤ k ∧ k ≤ 2 ^ 18 - 1 ∧
      (MAX31856Calculate M1).LTCT = (k : ℚ) * 0.0078125) ∧
    -2048 ≤ (MAX31856Calculate M1).LTCT ∧
    (MAX31856Calculate M1).LTCT ≤ 2047.9921875 ∧
    (MAX31856Calculate M1).LTCT ≤ (MAX31856Calculate M2).LTCT := by
  have b1 := MAX31856Calculate.temp_bounds M1.REG.LTC
  have mono : MAX31856Calculate.temp M1.REG.LTC ≤ MAX31856Calculate.temp M2.REG.LTC := by
    rw [MAX31856Calculate.temp_eq, MAX31856Calculate.temp_eq]
    exact Int.ediv_le_ediv (by norm_num) h
  have c1 : ((-2 ^ 18 : Int) : ℚ) ≤ (MAX31856Calculate.temp M1.REG.LTC : ℚ) :=
    Int.cast_le.mpr b1.1
  have c2 : (MAX31856Calculate.temp M1.REG.LTC : ℚ) ≤ ((2 ^ 18 - 1 : Int) : ℚ) :=
    Int.cast_le.mpr b1.2
  have c3 : (MAX31856Calculate.temp M1.REG.LTC : ℚ) ≤ (MAX31856Calculate.temp M2.REG.LTC : ℚ) :=
    Int.cast_le.mpr mono
  push_cast at c1 c2
  refine ⟨⟨MAX31856Calculate.temp M1.REG.LTC, b1.1, b1.2, rfl⟩, ?_, ?_, ?_⟩
  · simp only [MAX31856Calculate]
    norm_num
    linarith
  · simp only [MAX31856Calculate]
    norm_num
    linarith
  · simp only [MAX31856Calculate]
    norm_num
    linarith

/-- Witness of C17: the global instance (`LTC = 0x000000`) against a copy with
`LTC = 0x190000`. -/
theorem C17_LTCT_range_monotone_witness :
    (MAX31856Calculate MAX31856).LTCT ≤
      (MAX31856Calculate
        { MAX31856 with REG := { MAX31856.REG with LTC := ⟨0x19, 0x00, 0x00⟩ } }).LTCT :=
  (C17_LTCT_range_monotone MAX31856
    { MAX31856 with REG := { MAX31856.REG with LTC := ⟨0x19, 0x00, 0x00⟩ } }
    (by decide)).2.2.2

/-! ## The thermocouple-type report -/

/-- C18: for every `CR1` byte the field `TCTYPE` is bits 3..0 of the byte, and the ten `if`
statements of `MAX31856GetREGMapStringCR1` append exactly one label, the entry of `TCTYPE` in
`B, E, J, K, N, R, S, T`, four times `Voltage 8 X gain`, four times `Voltage 32 X gain`; the whole
report ends with `TC Type:`, that one label and the line end. -/
theorem C18_TCType_label (s : String) (M : MAX31856_REG_Struct) (Tconv TconvMax : String) :
    M.REG.CR1.TCTYPE = M.REG.CR1.WORD.val % 16 ∧
    MAX31856GetREGMapStringCR1.TCTypeLabel s M =
      s ++ ["B", "E", "J", "K", "N", "R", "S", "T",
            "Voltage 8 X gain", "Voltage 8 X gain", "Voltage 8 X gain", "Voltage 8 X gain",
            "Voltage 32 X gain", "Voltage 32 X gain", "Voltage 32 X gain",
            "Voltage 32 X gain"].getD M.REG.CR1.TCTYPE "" ∧
    M.REG.CR1.TCTYPE < 16 ∧
    MAX31856GetREGMapStringCR1 s M Tconv TconvMax =
      s ++ "CR1 (Configuration Register)\r\n"
        ++ (MAX31856GetREGMapStringCR1.AveragedSamples M).1
        ++ "\tEstimated Conversion Time:\t" ++ Tconv ++ "ms typical, " ++ TconvMax
        ++ "ms Maximum\r\n" ++ "\tTC Type:\t"
        ++ ["B", "E", "J", "K", "N", "R", "S", "T",
            "Voltage 8 X gain", "Voltage 8 X gain", "Voltage 8 X gain", "Voltage 8 X gain",
            "Voltage 32 X gain", "Voltage 32 X gain", "Voltage 32 X gain",
            "Voltage 32 X gain"].getD M.REG.CR1.TCTYPE ""
        ++ "\r\n" := by
  have hlt : M.REG.CR1.TCTYPE < 16 := by
    simp only [Reg8.TCTYPE, getBits]
    omega
  have key : ∀ u : String, MAX31856GetREGMapStringCR1.TCTypeLabel u M =
      u ++ ["B", "E", "J", "K", "N", "R", "S", "T",
            "Voltage 8 X gain", "Voltage 8 X gain", "Voltage 8 X gain", "Voltage 8 X gain",
            "Voltage 32 X gain", "Voltage 32 X gain", "Voltage 32 X gain",
            "Voltage 32 X gain"].getD M.REG.CR1.TCTYPE "" := by
    intro u
    unfold MAX31856GetREGMapStringCR1.TCTypeLabel
    generalize M.REG.CR1.TCTYPE = t at hlt ⊢
    interval_cases t <;> simp
  refine ⟨by simp only [Reg8.TCTYPE, getBits]; norm_num, key s, hlt, ?_⟩
  simp only [MAX31856GetREGMapStringCR1, key]

end Max31856
